import Mathlib

/-!
Shallow embedding of `apps/backend/app/services/ats_scoring_service.py`
(the ATS resume scoring engine of Resume_Matcher): the criterion scorer
(`_calculate_criteria_scores`), the suggestion generator
(`_generate_structured_suggestions`), the response structurer
(`_structure_frontend_response`) and the orchestrator
(`calculate_ats_score`), together with theorems settling the
specification's claims about them.

Modelling conventions:
* Python floats are modelled as exact rationals (`ℚ`); all the constants
  appearing in the source (0.4, 0.35, 0.8, 0.85, 1.5, 0.75, 0.1, ...) are
  exactly representable choices made by the source, embedded as the same
  decimal literals over `ℚ`.
* The structured resume object (a JSON-shaped Python dict) is modelled by
  the inductive type `Json`; a dict is an association list.
* Regular expressions used by the service are embedded as executable
  character-list matchers over the ASCII fragment (Python's `\w`, `\s`,
  `\d` classes and `str.lower`/`upper` additionally cover non-ASCII
  codepoints, which no claim exercises).
* The single place where the scorer can raise a Python exception on
  JSON-shaped input — iterating a non-iterable "Extracted Keywords"
  value — is modelled with `Except`; every other step of the pipeline is
  total (each division is guarded by the source exactly as modelled).
-/

/-- JSON-shaped Python values, as handed to the scoring service. -/
inductive Json where
  | str (s : String)
  | num (q : ℚ)
  | bool (b : Bool)
  | null
  | arr (elems : List Json)
  | obj (fields : List (String × Json))

/-- Python truthiness `bool(x)` for JSON-shaped values. -/
def Json.truthy : Json → Bool
  | .str s => decide (s ≠ "")
  | .num q => decide (q ≠ 0)
  | .bool b => b
  | .null => false
  | .arr xs => !xs.isEmpty
  | .obj fs => !fs.isEmpty

/-- `d.get(k)` on a Python dict: `none` when the key is absent.
A stored `None` comes back as `some Json.null` (Python cannot tell the
two apart either; call sites treat `Json.null` exactly as Python treats
a returned `None`). -/
def dictGet (d : List (String × Json)) (k : String) : Option Json :=
  (d.find? (fun p => decide (p.1 = k))).map Prod.snd

/-- `d.get(k, v)` on a Python dict: the default only applies when the key
is absent (a stored `None` is returned as `Json.null`, as in Python). -/
def dictGetD (d : List (String × Json)) (k : String) (v : Json) : Json :=
  (dictGet d k).getD v

/-- Truthiness of an optional lookup result (`None` is falsy). -/
def pyTruthy : Option Json → Bool
  | none => false
  | some v => v.truthy

/-- Drop the error of an `Except`, for stating evaluation facts. -/
def exceptOk {α : Type} : Except String α → Option α
  | .ok a => some a
  | .error _ => none

/-! ### String utilities mirroring the Python `str` methods used -/

/-- Python's `\s` class / `str.strip` whitespace, ASCII fragment. -/
def isPySpace (c : Char) : Bool :=
  c = ' ' || c = '\t' || c = '\n' || c = '\r' || c = '\x0b' || c = '\x0c'

/-- `str.lower()` (ASCII fragment). -/
def pyLower (s : String) : String := ⟨s.toList.map Char.toLower⟩

/-- `str.upper()` (ASCII fragment). -/
def pyUpper (s : String) : String := ⟨s.toList.map Char.toUpper⟩

/-- `str.strip()`: remove leading and trailing whitespace. -/
def pyStrip (s : String) : String :=
  ⟨((s.toList.dropWhile isPySpace).reverse.dropWhile isPySpace).reverse⟩

/-- `str.rstrip('.,:')`: remove trailing `.`, `,`, `:` characters. -/
def rstripPunct (s : String) : String :=
  ⟨(s.toList.reverse.dropWhile (fun c => c = '.' || c = ',' || c = ':')).reverse⟩

def wsSplitAux (acc : List Char) : List Char → List String
  | [] => if acc.isEmpty then [] else [⟨acc.reverse⟩]
  | c :: rest =>
    if isPySpace c then
      (if acc.isEmpty then [] else [⟨acc.reverse⟩]) ++ wsSplitAux [] rest
    else wsSplitAux (c :: acc) rest

/-- `str.split()` with no argument: split on whitespace runs, dropping
empty pieces. -/
def pyWsSplit (s : String) : List String := wsSplitAux [] s.toList

def charSplitAux (sep : Char) (acc : List Char) : List Char → List String
  | [] => [⟨acc.reverse⟩]
  | c :: rest =>
    if c = sep then ⟨acc.reverse⟩ :: charSplitAux sep [] rest
    else charSplitAux sep (c :: acc) rest

/-- `str.split(sep)` with a one-character separator (keeps empty pieces;
`"".split(sep) == [""]`). -/
def charSplit (s : String) (sep : Char) : List String :=
  charSplitAux sep [] s.toList

/-- `'sep'.join(parts)`. -/
def joinWith (sep : String) : List String → String
  | [] => ""
  | [a] => a
  | a :: b :: rest => a ++ sep ++ joinWith sep (b :: rest)

def listStartsWith : List Char → List Char → Bool
  | _, [] => true
  | [], _ :: _ => false
  | a :: as, b :: bs => a = b && listStartsWith as bs

def subSearch (needle : List Char) : List Char → Bool
  | [] => needle.isEmpty
  | c :: rest => listStartsWith (c :: rest) needle || subSearch needle rest

/-- Python's `needle in haystack` substring test. -/
def containsSub (haystack needle : String) : Bool :=
  subSearch needle.toList haystack.toList

/-! ### The service's regular expressions, as executable matchers

Each matcher embeds one compiled pattern of `AtsScoringService.__init__`,
with Python `re.match` (anchored at the start) / `re.search` (anywhere)
semantics as used at its call sites. -/

/-- A character of the class `[^@\s]` used by `email_pattern`. -/
def emailChar (c : Char) : Bool := !(c = '@' || isPySpace c)

/-- Backtracking matcher for `[^@\s]*\.[^@\s]+` at the head of the list
(the tail of `email_pattern` after its mandatory first `[^@\s]` of the
domain part). -/
def dotSearch : List Char → Bool
  | [] => false
  | c :: rest =>
    (c = '.' && (match rest with | d :: _ => emailChar d | [] => false))
      || (emailChar c && dotSearch rest)

/-- Matcher for `[^@\s]+\.[^@\s]+` at the head of the list. -/
def emailAfterAt : List Char → Bool
  | [] => false
  | c :: rest => emailChar c && dotSearch rest

/-- After at least one local-part character: skip the rest of `[^@\s]+`,
then require `@` followed by the domain part. -/
def emailA : List Char → Bool
  | [] => false
  | '@' :: rest => emailAfterAt rest
  | c :: rest => emailChar c && emailA rest

/-- `email_pattern.match(s)`, pattern `[^@\s]+@[^@\s]+\.[^@\s]+`
(anchored at the start, free at the end). -/
def email_pattern_match (s : String) : Bool :=
  match s.toList with
  | [] => false
  | c :: rest => emailChar c && emailA rest

/-- A character of the class `[\d\s\-\+\(\).]` used by `phone_pattern`. -/
def phoneChar (c : Char) : Bool :=
  c.isDigit || isPySpace c || c = '-' || c = '+' || c = '(' || c = ')' || c = '.'

def phoneSearchAux (run : Nat) : List Char → Bool
  | [] => false
  | c :: rest =>
    if phoneChar c then decide (run + 1 ≥ 7) || phoneSearchAux (run + 1) rest
    else phoneSearchAux 0 rest

/-- `phone_pattern.search(s)`, pattern `[\d\s\-\+\(\).]{7,}`: some run of
at least 7 consecutive phone characters occurs in `s`. -/
def phone_pattern_search (s : String) : Bool := phoneSearchAux 0 s.toList

/-- `number_pattern.search(s)`. The first alternative of the pattern is
`\d+%?`, which matches at every digit of the subject, and each of the
other three alternatives contains a mandatory `\d`; hence the Python
search succeeds exactly when the string contains a digit. -/
def number_pattern_search (s : String) : Bool := s.toList.any Char.isDigit

/-- Python's `\w` class (ASCII fragment). -/
def wordChar (c : Char) : Bool := c.isAlpha || c.isDigit || c = '_'

/-- Case-insensitive match of the (lowercase) pattern characters `w`
against a prefix of `l`. -/
def lowerPrefixMatches : List Char → List Char → Bool
  | [], _ => true
  | _ :: _, [] => false
  | a :: as, b :: bs => a = b.toLower && lowerPrefixMatches as bs

def listEndsWithEd (w : List Char) : Bool :=
  match w.reverse with
  | 'd' :: 'e' :: _ => true
  | _ => false

def auxVerbs : List String := ["am", "is", "are", "was", "were", "been", "being"]

/-- After an auxiliary verb: require `\s+` then `\w+ed\b` (the word-run
must be maximal for the trailing `\b`, so it is the full run). -/
def passiveTail (l : List Char) : Bool :=
  let sp := l.takeWhile isPySpace
  let r := l.dropWhile isPySpace
  let w := r.takeWhile wordChar
  !sp.isEmpty && decide (w.length ≥ 3) && listEndsWithEd (w.map Char.toLower)

def passiveHere (l : List Char) : Bool :=
  auxVerbs.any (fun v =>
    let vl := v.toList
    lowerPrefixMatches vl l &&
      (match (l.drop vl.length) with
       | [] => false
       | c :: _ => !wordChar c) &&
      passiveTail (l.drop vl.length))

def passiveScanAux : Bool → List Char → Bool
  | _, [] => false
  | atBoundary, c :: rest =>
    (atBoundary && passiveHere (c :: rest)) || passiveScanAux (!wordChar c) rest

/-- `passive_voice_pattern.search(s)`, pattern
`\b(am|is|are|was|were|been|being)\s+\w+ed\b` with `IGNORECASE`. -/
def passive_voice_search (s : String) : Bool := passiveScanAux true s.toList

def fillerPhrases : List String :=
  ["responsible for", "duties included", "assisted with", "worked on", "involved in"]

def fillerHere (l : List Char) : Bool :=
  fillerPhrases.any (fun v =>
    let vl := v.toList
    lowerPrefixMatches vl l &&
      (match (l.drop vl.length) with
       | [] => true
       | c :: _ => !wordChar c))

def fillerScanAux : Bool → List Char → Bool
  | _, [] => false
  | atBoundary, c :: rest =>
    (atBoundary && fillerHere (c :: rest)) || fillerScanAux (!wordChar c) rest

/-- `filler_words_pattern.search(s)`, pattern
`\b(responsible for|duties included|assisted with|worked on|involved in)\b`
with `IGNORECASE`. -/
def filler_words_search (s : String) : Bool := fillerScanAux true s.toList

/-- `^\d{4}-\d{2}-\d{2}$`. -/
def matchYMDFull (s : String) : Bool :=
  match s.toList with
  | [a, b, c, d, e, f, g, h, i, j] =>
    a.isDigit && b.isDigit && c.isDigit && d.isDigit && e = '-'
      && f.isDigit && g.isDigit && h = '-' && i.isDigit && j.isDigit
  | _ => false

/-- `^\d{4}-\d{2}$`. -/
def matchYM (s : String) : Bool :=
  match s.toList with
  | [a, b, c, d, e, f, g] =>
    a.isDigit && b.isDigit && c.isDigit && d.isDigit && e = '-'
      && f.isDigit && g.isDigit
  | _ => false

/-- `^\d{2}/\d{4}$`. -/
def matchMY (s : String) : Bool :=
  match s.toList with
  | [a, b, c, d, e, f, g] =>
    a.isDigit && b.isDigit && c = '/' && d.isDigit && e.isDigit
      && f.isDigit && g.isDigit
  | _ => false

/-- `^\w+\s+\d{4}$` (`\w` and `\s` are disjoint, so the greedy maximal
runs are the only possible decomposition). -/
def matchWordY (s : String) : Bool :=
  let l := s.toList
  let w := l.takeWhile wordChar
  let r1 := l.dropWhile wordChar
  let sp := r1.takeWhile isPySpace
  let r2 := r1.dropWhile isPySpace
  !w.isEmpty && !sp.isEmpty &&
    (match r2 with
     | [a, b, c, d] => a.isDigit && b.isDigit && c.isDigit && d.isDigit
     | _ => false)

/-- The final alternative `Present` of `date_format_pattern` under
`re.match` with `IGNORECASE`: the string starts with "present" in any
case. -/
def presentAtStart (s : String) : Bool :=
  lowerPrefixMatches "present".toList s.toList

/-- `date_format_pattern.match(s)`, pattern
`^\d{4}-\d{2}-\d{2}$|^\d{4}-\d{2}$|^\d{2}/\d{4}$|^\w+\s+\d{4}$|Present`
with `IGNORECASE` (only the last alternative is case-dependent). -/
def date_format_pattern_match (s : String) : Bool :=
  matchYMDFull s || matchYM s || matchMY s || matchWordY s || presentAtStart s

/-- The format-category classification inside the date-consistency block
of `_calculate_criteria_scores` (lines 305-312 of the source). -/
def dateCategory (s : String) : String :=
  if pyUpper s = "PRESENT" then "PRESENT"
  else if matchYMDFull s then "YYYY-MM-DD"
  else if matchYM s then "YYYY-MM"
  else if matchMY s then "MM/YYYY"
  else if matchWordY s then "Month YYYY"
  else "Unknown"

/-- Lexicographic-by-codepoint comparison (Python `str` ordering). -/
def listCharLt : List Char → List Char → Bool
  | [], [] => false
  | [], _ :: _ => true
  | _ :: _, [] => false
  | a :: as, b :: bs => a < b || (a = b && listCharLt as bs)

def strLt (a b : String) : Bool := listCharLt a.toList b.toList

/-- Insertion sort on strings (Python `sorted` over distinct strings:
lexicographic by codepoint). -/
def insertStr (a : String) : List String → List String
  | [] => [a]
  | b :: bs => if strLt a b then a :: b :: bs else b :: insertStr a bs

def sortStrs : List String → List String
  | [] => []
  | a :: as => insertStr a (sortStrs as)


/-! ### The criterion scorer (`_calculate_criteria_scores`) -/

/-- `self.action_verbs_list` (lines 26-68 of the source). -/
def action_verbs_list : List String := [
  "accelerated", "accomplished", "achieved", "acted", "adapted", "added",
  "addressed", "administered", "advised", "allocated", "analyzed", "appraised",
  "approved", "arbitrated", "arranged", "assembled", "assessed", "assigned",
  "assisted", "attained", "audited", "authored", "balanced", "broadened",
  "budgeted", "calculated", "cataloged", "centralized", "chaired", "changed",
  "clarified", "classified", "coached", "collaborated", "collected",
  "communicated", "compiled", "completed", "composed", "computed",
  "conceptualized", "conceived", "concluded", "conducted", "consolidated",
  "constructed", "contracted", "controlled", "convinced", "coordinated",
  "corresponded", "counseled", "created", "critiqued", "customized",
  "defined", "delegated", "delivered", "demonstrated", "demystified",
  "derived", "designed", "determined", "developed", "devised", "diagnosed",
  "directed", "discovered", "dispatched", "documented", "drafted", "earned",
  "edited", "educated", "enabled", "encouraged", "engineered", "energized",
  "enhanced", "enlisted", "ensured", "established", "evaluated", "examined",
  "executed", "expanded", "expedited", "explained", "extracted", "fabricated",
  "facilitated", "familiarized", "fashioned", "forecasted", "formed",
  "formulated", "founded", "gained", "gathered", "generated", "guided",
  "handled", "headed", "identified", "illustrated", "impacted", "implemented",
  "improved", "increased", "influenced", "informed", "initiated", "inspected",
  "installed", "instituted", "instructed", "integrated", "interpreted",
  "interviewed", "introduced", "invented", "investigated", "launched",
  "lectured", "led", "liaised", "maintained", "managed", "marketed",
  "mastered", "maximized", "mediated", "minimized", "modeled", "moderated",
  "monitored", "motivated", "negotiated", "operated", "optimized",
  "orchestrated", "organized", "originated", "overhauled", "oversaw",
  "participated", "performed", "persuaded", "planned", "predicted",
  "prepared", "presented", "prioritized", "processed", "produced",
  "programmed", "projected", "promoted", "proposed", "proved", "provided",
  "publicized", "published", "purchased", "recommended", "reconciled",
  "recorded", "recruited", "redesigned", "reduced", "referred", "regulated",
  "rehabilitated", "reinforced", "remodeled", "reorganized", "repaired",
  "reported", "represented", "researched", "resolved", "retrieved",
  "reviewed", "revised", "revitalized", "rewrote", "scheduled", "screened",
  "selected", "served", "set goals", "shaped", "simplified", "sold",
  "solved", "spoke", "spearheaded", "specified", "standardized", "steered",
  "stimulated", "streamlined", "strengthened", "structured", "studied",
  "suggested", "summarized", "supervised", "supported", "surpassed",
  "surveyed", "synthesized", "systematized", "tabulated", "taught",
  "tested", "trained", "translated", "unified", "updated", "upgraded",
  "utilized", "validated", "verbalized", "verified", "visualized", "wrote"]

/-- `self.common_adverbs` (lines 70-73 of the source). -/
def common_adverbs : List String :=
  ["successfully", "effectively", "consistently", "significantly",
   "actively", "greatly", "strongly", "directly"]

structure SectionCompletenessScore where
  score : ℚ
  max : ℚ
  passed : List String

structure ContactInfoScore where
  score : ℚ
  max : ℚ
  passed : List String

structure ProfileSummaryScore where
  score : ℚ
  max : ℚ
  present : Bool
  length : ℕ

structure KeywordDensityScore where
  score : ℚ
  max : ℚ
  passed : ℕ
  keywords_found : List String

structure ExperienceDetailsScore where
  score : ℚ
  max : ℚ
  passed : List Json
  total_entries : ℕ

/-- Shape shared by the `action_verbs`, `quantifiable_results` and
`bullet_conciseness` entries of the criteria dict. -/
structure BulletRatioScore where
  score : ℚ
  max : ℚ
  passed : ℕ
  total_bullets : ℕ

structure GrammarIndicatorsScore where
  score : ℚ
  max : ℚ
  passive_count : ℕ
  filler_count : ℕ
  total_bullets : ℕ

structure DateConsistencyScore where
  score : ℚ
  max : ℚ
  consistent : Bool
  formats_found : List String
  has_dates : Bool

/-- The ten-criterion dict built by `_calculate_criteria_scores`,
field names as in the source. -/
structure CriteriaScores where
  section_completeness : SectionCompletenessScore
  contact_info_quality : ContactInfoScore
  profile_summary_quality : ProfileSummaryScore
  keyword_density : KeywordDensityScore
  experience_details_present : ExperienceDetailsScore
  action_verbs : BulletRatioScore
  quantifiable_results : BulletRatioScore
  bullet_conciseness : BulletRatioScore
  grammar_indicators : GrammarIndicatorsScore
  date_consistency : DateConsistencyScore

/-- `sections_to_check` (lines 159-163): data key paired with display name. -/
def sections_to_check : List (String × String) :=
  [("Personal Data", "Personal Data"), ("Profile Summary", "Profile Summary"),
   ("Experiences", "Experience"), ("Education", "Education"),
   ("Skills", "Skills"), ("Projects", "Projects")]

/-- Lines 166-169: a section counts when its value is not `None` and,
for a list/dict value, the value is non-empty (any other present value
counts regardless of truthiness). -/
def sectionContentCounts : Option Json → Bool
  | none => false
  | some .null => false
  | some (.arr xs) => !xs.isEmpty
  | some (.obj fs) => !fs.isEmpty
  | some _ => true

/-- Criterion 1, section completeness (lines 157-173). -/
def sectionCompletenessOf (d : List (String × Json)) : SectionCompletenessScore :=
  let present := (sections_to_check.filter
    (fun p => sectionContentCounts (dictGet d p.1))).map Prod.snd
  { score := min ((15 / 6 : ℚ) * present.length) 15, max := 15, passed := present }

def emailOk (pd : List (String × Json)) : Bool :=
  match dictGet pd "email" with
  | some (.str s) => decide (s ≠ "") && email_pattern_match s
  | _ => false

def phoneOk (pd : List (String × Json)) : Bool :=
  match dictGet pd "phone" with
  | some (.str s) => decide (s ≠ "") && phone_pattern_search s
  | _ => false

def linkedinOk (pd : List (String × Json)) : Bool :=
  match dictGet pd "linkedin" with
  | some (.str s) =>
    decide (s ≠ "") && containsSub (pyLower s) "linkedin.com" && !decide (pyLower s = "string")
  | _ => false

/-- The fields of `personal_data = d.get("Personal Data", {})`
(line 178). A non-dict value performs no checks (line 179), which
coincides with checking an empty dict. -/
def pdFieldsOf (d : List (String × Json)) : List (String × Json) :=
  match dictGetD d "Personal Data" (.obj []) with
  | .obj fs => fs
  | _ => []

/-- Criterion 2, contact info quality (lines 175-193). -/
def contactInfoOf (d : List (String × Json)) : ContactInfoScore :=
  let pd := pdFieldsOf d
  { score := (if emailOk pd then (10 : ℚ) * 0.4 else 0)
      + (if phoneOk pd then (10 : ℚ) * 0.4 else 0)
      + (if linkedinOk pd then (10 : ℚ) * 0.2 else 0)
    max := 10
    passed := (if emailOk pd then ["Email (Valid Format)"] else [])
      ++ (if phoneOk pd then ["Phone (Found)"] else [])
      ++ (if linkedinOk pd then ["LinkedIn (Found)"] else []) }

/-- Criterion 3, profile summary quality (lines 195-206): `(present, word
count)` of the "Profile Summary" value. -/
def summaryInfo (d : List (String × Json)) : Bool × ℕ :=
  match dictGet d "Profile Summary" with
  | some (.str s) =>
    if decide (s ≠ "") && decide (pyStrip s ≠ "") then (true, (pyWsSplit s).length)
    else (false, 0)
  | _ => (false, 0)

def profileSummaryOf (d : List (String × Json)) : ProfileSummaryScore :=
  let info := summaryInfo d
  { score :=
      if info.1 then
        if 25 ≤ info.2 ∧ info.2 ≤ 75 then 5
        else if (10 ≤ info.2 ∧ info.2 < 25) ∨ (75 < info.2 ∧ info.2 ≤ 100) then (5 : ℚ) * 0.5
        else 0
      else 0
    max := 5
    present := info.1
    length := info.2 }

/-- Python iteration over a JSON-shaped value, as applied to the
"Extracted Keywords" value (line 211): lists yield elements, strings
yield characters, dicts yield keys, everything else raises `TypeError`. -/
def iterJson : Json → Except String (List Json)
  | .arr xs => .ok xs
  | .str s => .ok (s.toList.map (fun c => .str ⟨[c]⟩))
  | .obj fs => .ok (fs.map (fun p => Json.str p.1))
  | _ => .error "TypeError: 'Extracted Keywords' value is not iterable"

/-- Skill names collected from the "Skills" list (lines 212-218):
`skill_entry.get("skillName") or skill_entry.get("skill_name")`, kept
when a truthy string. -/
def skillNames (d : List (String × Json)) : List String :=
  match dictGetD d "Skills" (.arr []) with
  | .arr xs => xs.filterMap (fun e =>
      match e with
      | .obj fs =>
        let sn : Option Json :=
          match dictGet fs "skillName" with
          | some v => if v.truthy then some v else dictGet fs "skill_name"
          | none => dictGet fs "skill_name"
        match sn with
        | some (.str s) => if decide (s ≠ "") then some s else none
        | _ => none
      | _ => none)
  | _ => []

/-- Criterion 4, keyword density (lines 208-224), given the already
iterated "Extracted Keywords" value. -/
def keywordDensityOf (d : List (String × Json)) (kwsIter : List Json) : KeywordDensityScore :=
  let extracted := kwsIter.filterMap (fun j => match j with | .str s => some s | _ => none)
  let allKw := (extracted ++ skillNames d).dedup
  { score := min ((allKw.length : ℚ) / 30) 1 * 15
    max := 15
    passed := allKw.length
    keywords_found := sortStrs allKw }

def asList : Json → List Json
  | .arr xs => xs
  | _ => []

/-- `combined_entries` (lines 227-231): experiences then projects, each
only when the value is a list. -/
def combinedEntries (d : List (String × Json)) : List Json :=
  asList (dictGetD d "Experiences" (.arr [])) ++ asList (dictGetD d "Projects" (.arr []))

/-- The description bullets of one entry (lines 239-242). -/
def entryDescriptions (fs : List (String × Json)) : List String :=
  match dictGet fs "description" with
  | some (.str s) => ((charSplit s '\n').map pyStrip).filter (fun x => decide (x ≠ ""))
  | some (.arr xs) => xs.filterMap (fun j =>
      match j with
      | .str t => if decide (pyStrip t ≠ "") then some t else none
      | _ => none)
  | _ => []

/-- All bullets across the combined entries, in source order (non-dict
entries are skipped by the `continue` of line 238). -/
def allBullets (d : List (String × Json)) : List String :=
  ((combinedEntries d).filterMap (fun e =>
    match e with
    | .obj fs => some (entryDescriptions fs)
    | _ => none)).flatten

def endsWithLy (s : String) : Bool :=
  match s.toList.reverse with
  | 'y' :: 'l' :: _ => true
  | _ => false

def firstToken (words : List String) : String :=
  match words with
  | [] => ""
  | w :: _ => rstripPunct (pyLower w)

def secondToken (words : List String) : String :=
  match words with
  | _ :: w :: _ => rstripPunct (pyLower w)
  | _ => ""

/-- Lines 250-257: first (or, under the adverb / "-ly" exception, second)
whitespace-token test against the action-verb set. `desc.split(" ")`
keeps empty pieces and never yields an empty list. -/
def isActionBullet (desc : String) : Bool :=
  let words := charSplit desc ' '
  let fw := firstToken words
  action_verbs_list.contains fw ||
    ((common_adverbs.contains fw || (endsWithLy fw && decide (fw.length > 3)))
      && decide (words.length > 1)
      && action_verbs_list.contains (secondToken words))

structure BulletCounts where
  total : ℕ
  actionHits : ℕ
  numberHits : ℕ
  conciseHits : ℕ
  passiveHits : ℕ
  fillerHits : ℕ

/-- The per-bullet counters of the entry loop (lines 249-261). -/
def bulletCountsOf (bullets : List String) : BulletCounts :=
  { total := bullets.length
    actionHits := bullets.countP isActionBullet
    numberHits := bullets.countP number_pattern_search
    conciseHits := bullets.countP (fun b => decide (b.length ≤ 170))
    passiveHits := bullets.countP passive_voice_search
    fillerHits := bullets.countP filler_words_search }

/-- `entry.get("jobTitle") or entry.get("projectName", "Entry")`
(line 247). -/
def entryName (fs : List (String × Json)) : Json :=
  match dictGet fs "jobTitle" with
  | some v => if v.truthy then v else dictGetD fs "projectName" (.str "Entry")
  | none => dictGetD fs "projectName" (.str "Entry")

/-- Names of the entries having at least one bullet (lines 244-248). -/
def entriesWithDescNames (d : List (String × Json)) : List Json :=
  (combinedEntries d).filterMap (fun e =>
    match e with
    | .obj fs =>
      if !(entryDescriptions fs).isEmpty then some (entryName fs) else none
    | _ => none)

/-- Stripped, non-empty start/end date strings of one entry
(lines 263-266). -/
def entryDates (fs : List (String × Json)) : List String :=
  (match dictGet fs "startDate" with
   | some (.str s) => if decide (pyStrip s ≠ "") then [pyStrip s] else []
   | _ => []) ++
  (match dictGet fs "endDate" with
   | some (.str s) => if decide (pyStrip s ≠ "") then [pyStrip s] else []
   | _ => [])

/-- `date_strings` (lines 263-276): experience/project entry dates in
entry order, then education entry dates. -/
def collectDateStrings (d : List (String × Json)) : List String :=
  (((combinedEntries d).filterMap (fun e =>
      match e with
      | .obj fs => some (entryDates fs)
      | _ => none)).flatten)
  ++ (((asList (dictGetD d "Education" (.arr []))).filterMap (fun e =>
      match e with
      | .obj fs => some (entryDates fs)
      | _ => none)).flatten)

/-- Criterion 5, experience/project detail presence (line 279). -/
def experienceDetailsOf (d : List (String × Json)) : ExperienceDetailsScore :=
  let entries := combinedEntries d
  let names := entriesWithDescNames d
  { score := (if entries.isEmpty then 0 else (names.length : ℚ) / entries.length) * 10
    max := 10
    passed := names
    total_entries := entries.length }

/-- Criterion 6, action verbs (lines 285-286). -/
def actionVerbsOf (c : BulletCounts) : BulletRatioScore :=
  { score := if c.total > 0 then min (((c.actionHits : ℚ) / c.total) / 0.8) 1 * 15 else 0
    max := 15
    passed := if c.total > 0 then c.actionHits else 0
    total_bullets := c.total }

/-- Criterion 7, quantifiable results (lines 287-288). -/
def quantifiableOf (c : BulletCounts) : BulletRatioScore :=
  { score := if c.total > 0 then min (((c.numberHits : ℚ) / c.total) / 0.35) 1 * 15 else 0
    max := 15
    passed := if c.total > 0 then c.numberHits else 0
    total_bullets := c.total }

/-- Criterion 8, bullet conciseness (lines 289-290). -/
def concisenessOf (c : BulletCounts) : BulletRatioScore :=
  { score := if c.total > 0 then min (((c.conciseHits : ℚ) / c.total) / 0.85) 1 * 10 else 0
    max := 10
    passed := if c.total > 0 then c.conciseHits else 0
    total_bullets := c.total }

/-- Criterion 9, grammar indicators (lines 291-297). -/
def grammarOf (c : BulletCounts) : GrammarIndicatorsScore :=
  { score :=
      if c.total > 0 then
        max 0 ((5 : ℚ) - ((c.passiveHits : ℚ) / c.total) * 5 * 1.5
          - ((c.fillerHits : ℚ) / c.total) * 5 * 0.75)
      else 0
    max := 5
    passive_count := if c.total > 0 then c.passiveHits else 0
    filler_count := if c.total > 0 then c.fillerHits else 0
    total_bullets := c.total }

/-- `date_formats_found` (line 301): the date strings accepted by
`date_format_pattern`. -/
def dateFormatsFound (dates : List String) : List String :=
  dates.filter date_format_pattern_match

/-- The non-"Unknown" format categories, i.e. the keys counted by
`format_counts = Counter(cat for cat in format_categories if cat != 'Unknown')`
(line 313). -/
def dateNonUnknownCats (dates : List String) : List String :=
  ((dateFormatsFound dates).map dateCategory).filter (fun c => decide (c ≠ "Unknown"))

/-- `valid_format_types = set(format_counts.keys()) - {'PRESENT'}`
(line 315), as a deduplicated list. -/
def dateValidTypes (dates : List String) : List String :=
  ((dateNonUnknownCats dates).filter (fun c => decide (c ≠ "PRESENT"))).dedup

/-- `consistent_dates` as it stands after lines 302-319, before the
score assignment. -/
def consistentDatesPre (dates : List String) : Bool :=
  if !(dateFormatsFound dates).isEmpty then
    (if !(dateNonUnknownCats dates).isEmpty then
      !decide ((dateValidTypes dates).length > 1)
    else true)
  else if !dates.isEmpty then false
  else true

/-- Criterion 10, date consistency (lines 299-324). -/
def dateConsistencyOf (dates : List String) : DateConsistencyScore :=
  { score :=
      if consistentDatesPre dates && !(dateFormatsFound dates).isEmpty then 5
      else if dates.isEmpty then (5 : ℚ) * 0.5
      else 0
    max := 5
    consistent :=
      if consistentDatesPre dates && !(dateFormatsFound dates).isEmpty then true
      else if dates.isEmpty then true
      else false
    formats_found := (dateFormatsFound dates).dedup
    has_dates := !dates.isEmpty }

/-- The body of `_calculate_criteria_scores` after the "Extracted
Keywords" value has been iterated (the only fallible step). -/
def calcCriteriaCore (d : List (String × Json)) (kwsIter : List Json) : CriteriaScores :=
  let counts := bulletCountsOf (allBullets d)
  { section_completeness := sectionCompletenessOf d
    contact_info_quality := contactInfoOf d
    profile_summary_quality := profileSummaryOf d
    keyword_density := keywordDensityOf d kwsIter
    experience_details_present := experienceDetailsOf d
    action_verbs := actionVerbsOf counts
    quantifiable_results := quantifiableOf counts
    bullet_conciseness := concisenessOf counts
    grammar_indicators := grammarOf counts
    date_consistency := dateConsistencyOf (collectDateStrings d) }

/-- `_calculate_criteria_scores` (lines 138-328). Iterating a
non-iterable "Extracted Keywords" value raises `TypeError` in Python;
everything else is total. -/
def calculate_criteria_scores (d : List (String × Json)) : Except String CriteriaScores :=
  match iterJson (dictGetD d "Extracted Keywords" (.arr [])) with
  | .error e => .error e
  | .ok kws => .ok (calcCriteriaCore d kws)

/-- The criteria dict as an ordered (name, max) listing, for the
ten-criterion / weights-sum-to-100 invariant. -/
def criteriaMaxPairs (cs : CriteriaScores) : List (String × ℚ) :=
  [("section_completeness", cs.section_completeness.max),
   ("contact_info_quality", cs.contact_info_quality.max),
   ("profile_summary_quality", cs.profile_summary_quality.max),
   ("keyword_density", cs.keyword_density.max),
   ("experience_details_present", cs.experience_details_present.max),
   ("action_verbs", cs.action_verbs.max),
   ("quantifiable_results", cs.quantifiable_results.max),
   ("bullet_conciseness", cs.bullet_conciseness.max),
   ("grammar_indicators", cs.grammar_indicators.max),
   ("date_consistency", cs.date_consistency.max)]

/-- `total_score = sum(details.get("score", 0) ...)` (line 112). -/
def sumScores (cs : CriteriaScores) : ℚ :=
  cs.section_completeness.score + cs.contact_info_quality.score
    + cs.profile_summary_quality.score + cs.keyword_density.score
    + cs.experience_details_present.score + cs.action_verbs.score
    + cs.quantifiable_results.score + cs.bullet_conciseness.score
    + cs.grammar_indicators.score + cs.date_consistency.score


/-! ### The suggestion generator (`_generate_structured_suggestions`,
lines 567-708) -/

/-- "Structure & Sections" category: the missing-sections message
(lines 581-592) and the missing-summary-section message routed here from
the profile-summary block (lines 612-614). -/
def structureSectionsSuggestions (cs : CriteriaScores) : List String :=
  let passedL := cs.section_completeness.passed
  let missing :=
    (if passedL.contains "Personal Data" then [] else ["Contact Info"]) ++
    (if passedL.contains "Experience" then [] else ["Work Experience/Projects"]) ++
    (if passedL.contains "Education" then [] else ["Education"]) ++
    (if passedL.contains "Skills" then [] else ["Skills"]) ++
    (if passedL.contains "Projects" then [] else ["Projects"])
  (if decide (cs.section_completeness.score < cs.section_completeness.max - 0.1)
      && !missing.isEmpty then
    ["Missing or unclear standard sections: " ++ joinWith ", " missing
      ++ ". Use clear headers."]
  else []) ++
  (if !cs.profile_summary_quality.present && !passedL.contains "Profile Summary" then
    ["Consider adding a Profile Summary/Objective section near the top."]
  else [])

/-- "Contact Info" category (lines 594-605). -/
def contactSuggestions (cs : CriteriaScores) : List String :=
  let passed := cs.contact_info_quality.passed
  let missingContact :=
    (if passed.contains "Email (Valid Format)" then [] else ["valid Email"]) ++
    (if passed.contains "Phone (Found)" then [] else ["Phone Number"])
  (if decide (cs.contact_info_quality.score < cs.contact_info_quality.max * 0.8)
      && !missingContact.isEmpty then
    ["Include essential, correctly formatted details: "
      ++ joinWith ", " missingContact ++ "."]
  else []) ++
  (if passed.contains "LinkedIn (Found)" then [] else
    ["Consider adding a professional LinkedIn profile link."])

/-- "Profile Summary" category (lines 607-621). -/
def profileSummarySuggestions (cs : CriteriaScores) : List String :=
  let ps := cs.profile_summary_quality
  if !ps.present then
    (if cs.section_completeness.passed.contains "Profile Summary" then
      ["Add a brief Profile Summary (2-4 sentences) to highlight key qualifications."]
    else [])
  else if decide (ps.score < ps.max) then
    (if ps.length < 25 then
      ["Expand your summary slightly (aim for 2-4 sentences) to better introduce key skills."]
    else if ps.length > 75 then
      ["Condense your summary to 2-4 concise sentences focusing on strongest qualifications."]
    else [])
  else []

/-- "Keywords" category (lines 623-630). -/
def keywordSuggestions (cs : CriteriaScores) : List String :=
  let kd := cs.keyword_density
  if kd.passed < 10 then
    ["Keyword count is low. Ensure technical skills, tools, software, industry terms are clearly listed/described."]
  else if decide (kd.score < kd.max * 0.7) then
    ["Keyword usage (" ++ toString kd.passed
      ++ " found) could be improved. Integrate more relevant terms naturally into Summary and Experience."]
  else []

/-- "Experience & Projects" category (lines 632-653); `int(...)`
truncates the nonnegative products, i.e. takes the floor. -/
def expProjSuggestions (cs : CriteriaScores) : List String :=
  let ed := cs.experience_details_present
  let av := cs.action_verbs
  let qr := cs.quantifiable_results
  (if decide (ed.score < ed.max - 0.1) then
    ["Ensure every work/project entry includes descriptive bullet points."]
  else []) ++
  (if decide (av.total_bullets > 0) && decide (av.score < av.max * 0.7) then
    ["Use strong action verbs (e.g., Managed, Developed) to start most ("
      ++ toString (max 1 (⌊(av.total_bullets : ℚ) * 0.8⌋ - (av.passed : ℤ)))
      ++ " more) bullet points."]
  else []) ++
  (if decide (qr.total_bullets > 0) && decide (qr.score < qr.max * 0.6) then
    ["Quantify achievements more. Add numbers/metrics to showcase impact (aim for ~"
      ++ toString (max 1 ⌊(qr.total_bullets : ℚ) * 0.35⌋) ++ " bullets)."]
  else [])

/-- The date-format suggestion text (lines 672-679). -/
def dateSuggestionText (formats : List String) : String :=
  let base := "Use a consistent date format (e.g., MM/YYYY or Month YYYY) throughout all sections (Experience, Education)."
  if formats.isEmpty then base
  else
    let uniqueValid := sortStrs (formats.filter date_format_pattern_match).dedup
    base ++ " Found formats like: " ++ joinWith ", " (uniqueValid.take 3)
      ++ (if decide (uniqueValid.length > 3) then "..." else "") ++ "."

/-- "Grammar & Style" category (lines 655-679). -/
def grammarStyleSuggestions (cs : CriteriaScores) : List String :=
  let bc := cs.bullet_conciseness
  let gi := cs.grammar_indicators
  let dc := cs.date_consistency
  let outer := decide (gi.score < gi.max * 0.8) || decide (gi.passive_count > 0)
    || decide (gi.filler_count > 0)
  (if decide (bc.total_bullets > 0) && decide (bc.score < bc.max * 0.8) then
    ["Keep bullet points concise (ideally 1-2 lines, under 170 characters) for easy scanning."]
  else []) ++
  (if outer && decide (gi.passive_count > 0) then
    ["Avoid passive voice (" ++ toString gi.passive_count
      ++ " instance(s) found). Rephrase actively (e.g., 'Managed team' instead of 'Team was managed')."]
  else []) ++
  (if outer && decide (gi.filler_count > 0) then
    ["Replace weaker phrases like 'responsible for' or 'assisted with' ("
      ++ toString gi.filler_count
      ++ " instance(s) found) with direct action verbs describing your contribution."]
  else []) ++
  (if !dc.consistent then [dateSuggestionText dc.formats_found] else [])

/-- "Education" category (lines 681-690). -/
def educationSuggestions (d : List (String × Json)) : List String :=
  let entries := asList (dictGetD d "Education" (.arr []))
  let missingEdu := entries.any (fun e =>
    match e with
    | .obj fs => !pyTruthy (dictGet fs "institution") || !pyTruthy (dictGet fs "degree")
    | _ => false)
  if missingEdu then
    ["Ensure all education entries include both the institution name and the degree/qualification obtained."]
  else []

/-- "Overall" category (lines 692-705), banded on
`score_threshold_medium = 65` and `score_threshold_good = 85`. -/
def overallSuggestion (final_score : ℤ) (hasSpecific : Bool) : List String :=
  if final_score < 65 then
    ["This resume needs significant improvement for ATS compatibility. Focus on the suggestions provided in each category."]
  else if final_score < 85 then
    (if hasSpecific then
      ["Good start! This resume is reasonably ATS-friendly. Addressing the specific suggestions can make it much stronger."]
    else
      ["Good structure and content! Generally ATS-friendly. Minor refinements could improve it further."])
  else
    (if hasSpecific then
      ["Excellent score! Your resume aligns well with ATS best practices. Addressing the minor suggestions below will perfect it."]
    else
      ["Excellent! Your resume follows ATS best practices effectively."])

/-- `has_specific_suggestions` (line 693): some category other than
"Overall" produced a suggestion. -/
def hasSpecificOf (cs : CriteriaScores) (d : List (String × Json)) : Bool :=
  !(structureSectionsSuggestions cs).isEmpty || !(contactSuggestions cs).isEmpty
    || !(profileSummarySuggestions cs).isEmpty || !(keywordSuggestions cs).isEmpty
    || !(expProjSuggestions cs).isEmpty || !(grammarStyleSuggestions cs).isEmpty
    || !(educationSuggestions d).isEmpty

/-- `_generate_structured_suggestions`: the eight fixed categories in
dict insertion order, with the empty ones filtered out at the end
(line 707). -/
def generate_structured_suggestions (cs : CriteriaScores) (final_score : ℤ)
    (d : List (String × Json)) : List (String × List String) :=
  ([("Overall", overallSuggestion final_score (hasSpecificOf cs d)),
    ("Structure & Sections", structureSectionsSuggestions cs),
    ("Contact Info", contactSuggestions cs),
    ("Profile Summary", profileSummarySuggestions cs),
    ("Keywords", keywordSuggestions cs),
    ("Experience & Projects", expProjSuggestions cs),
    ("Grammar & Style", grammarStyleSuggestions cs),
    ("Education", educationSuggestions d)]).filter (fun p => !p.2.isEmpty)

/-! ### The response structurer (`_structure_frontend_response`,
lines 332-563) -/

structure SubItem where
  text : String
  status : String

structure SidebarCategory where
  title : String
  percentage : Option ℤ
  sub_items : List SubItem

structure Sidebar where
  overall_score : ℤ
  total_issues : ℕ
  categories : List SidebarCategory

structure ReportPoint where
  text : String
  isGood : Bool

structure ReportCard where
  id : String
  icon : String
  title : String
  status : String
  color : String
  points : List ReportPoint
  ai_suggestions : List String

structure StructuredOutput where
  ats_score : ℤ
  score_breakdown_for_sidebar : Sidebar
  report_details : List ReportCard

/-- `calculate_percentage` (lines 345-349); the `score is None /
max_score is None` guards of the source are unreachable in the typed
model, leaving the `max_score == 0` guard. -/
def calculate_percentage (score maxScore : ℚ) : Option ℤ :=
  if maxScore = 0 then none
  else some ⌈min (max (score / maxScore) 0) 1 * 100⌉

/-- `get_status_color_perc` (lines 336-342), with
`THRESHOLD_GOOD = 80` and `THRESHOLD_MEDIUM = 60` (the source computes
the percentage once into a local; it is repeated here for direct case
analysis). -/
def get_status_color_perc (score maxScore : ℚ) : Option ℤ × String × String :=
  if maxScore = 0 then (none, "Info", "default")
  else if ⌈min (max (score / maxScore) 0) 1 * 100⌉ ≥ (80 : ℤ) then
    (some ⌈min (max (score / maxScore) 0) 1 * 100⌉, "Strong", "success")
  else if ⌈min (max (score / maxScore) 0) 1 * 100⌉ ≥ (60 : ℤ) then
    (some ⌈min (max (score / maxScore) 0) 1 * 100⌉, "Okay", "warning")
  else (some ⌈min (max (score / maxScore) 0) 1 * 100⌉, "Needs Improvement", "error")

/-- `perc is not None and perc >= t` for a criterion's percentage. -/
def percAtLeast (score maxScore : ℚ) (t : ℤ) : Bool :=
  match calculate_percentage score maxScore with
  | some p => decide (p ≥ t)
  | none => false

def passFail (b : Bool) : String := if b then "pass" else "fail"

def qrPassB (cs : CriteriaScores) : Bool :=
  percAtLeast cs.quantifiable_results.score cs.quantifiable_results.max 60

def giPassB (cs : CriteriaScores) : Bool :=
  percAtLeast cs.grammar_indicators.score cs.grammar_indicators.max 80

def esPassB (cs : CriteriaScores) : Bool :=
  percAtLeast cs.section_completeness.score cs.section_completeness.max 90

def ciPassB (cs : CriteriaScores) : Bool :=
  percAtLeast cs.contact_info_quality.score cs.contact_info_quality.max 80

def emailPassB (cs : CriteriaScores) : Bool :=
  cs.contact_info_quality.passed.contains "Email (Valid Format)"

def linkedinPassB (cs : CriteriaScores) : Bool :=
  cs.contact_info_quality.passed.contains "LinkedIn (Found)"

/-- Sidebar CONTENT category (lines 355-378). -/
def contentCategory (cs : CriteriaScores) : SidebarCategory :=
  let qr := cs.quantifiable_results
  let gi := cs.grammar_indicators
  let scoresSum := (if decide (qr.max > 0) then qr.score else 0)
    + (if decide (gi.max > 0) then gi.score else 0)
  let maxSum := (if decide (qr.max > 0) then qr.max else 0)
    + (if decide (gi.max > 0) then gi.max else 0)
  { title := "CONTENT"
    percentage := calculate_percentage scoresSum maxSum
    sub_items := [⟨"ATS Parse Rate", "pass"⟩,
      ⟨"Quantifying Impact", passFail (qrPassB cs)⟩,
      ⟨"Repetition", "info"⟩,
      ⟨"Spelling & Grammar", passFail (giPassB cs)⟩] }

/-- Sidebar SECTION category (lines 380-399). -/
def sectionCategory (cs : CriteriaScores) : SidebarCategory :=
  let es := cs.section_completeness
  let ci := cs.contact_info_quality
  let scoresSum := (if decide (es.max > 0) then es.score else 0)
    + (if decide (ci.max > 0) then ci.score else 0)
  let maxSum := (if decide (es.max > 0) then es.max else 0)
    + (if decide (ci.max > 0) then ci.max else 0)
  { title := "SECTION"
    percentage := calculate_percentage scoresSum maxSum
    sub_items := [⟨"Essential Sections", passFail (esPassB cs)⟩,
      ⟨"Contact Information", passFail (ciPassB cs)⟩] }

/-- Sidebar ATS ESSENTIALS category (lines 401-417). -/
def atsCategory (cs : CriteriaScores) : SidebarCategory :=
  let passCount : ℕ := (if emailPassB cs then 1 else 0) + (if linkedinPassB cs then 1 else 0)
  { title := "ATS ESSENTIALS"
    percentage := calculate_percentage (passCount : ℚ) 2
    sub_items := [⟨"File Format & Size", "pass"⟩, ⟨"Design", "info"⟩,
      ⟨"Email Address", passFail (emailPassB cs)⟩,
      ⟨"Hyperlink in Header", passFail (linkedinPassB cs)⟩] }

/-- Sidebar TAILORING category (lines 419-426). -/
def tailoringCategory : SidebarCategory :=
  { title := "TAILORING", percentage := none,
    sub_items := [⟨"Hard Skills", "info"⟩, ⟨"Soft Skills", "info"⟩,
      ⟨"Action Verbs", "info"⟩, ⟨"Tailored Title", "info"⟩] }

/-- The `total_issues` accumulation across the sidebar construction
(each `if *_status == "fail": total_issues += 1`, in source order). -/
def totalIssuesOf (cs : CriteriaScores) : ℕ :=
  (if passFail (qrPassB cs) = "fail" then 1 else 0)
  + (if passFail (giPassB cs) = "fail" then 1 else 0)
  + (if passFail (esPassB cs) = "fail" then 1 else 0)
  + (if passFail (ciPassB cs) = "fail" then 1 else 0)
  + (if passFail (emailPassB cs) = "fail" then 1 else 0)
  + (if passFail (linkedinPassB cs) = "fail" then 1 else 0)

def lookupSugg (sugg : List (String × List String)) (k : String) : List String :=
  ((sugg.find? (fun p => decide (p.1 = k))).map Prod.snd).getD []

/-- Report card 1, Summary (lines 438-459). -/
def summaryCard (cs : CriteriaScores) (sugg : List (String × List String)) : ReportCard :=
  let ps := cs.profile_summary_quality
  let sc := get_status_color_perc ps.score ps.max
  { id := "summary", icon := "📝", title := "Summary"
    status := sc.2.1
    color := sc.2.2
    points :=
      if ps.present then
        [⟨"Summary is present.", true⟩,
         if decide (ps.score = ps.max) then ⟨"Good length (25-75 words).", true⟩
         else ⟨"Summary length is too short (< 25 words) or too long (> 75 words).", false⟩]
      else [⟨"Profile Summary section is missing or empty.", false⟩]
    ai_suggestions := lookupSugg sugg "Profile Summary" }

/-- Report card 2, Work Experience (lines 461-500). -/
def experienceCard (cs : CriteriaScores) (sugg : List (String × List String)) : ReportCard :=
  let av := cs.action_verbs
  let qr := cs.quantifiable_results
  let ed := cs.experience_details_present
  let sc := get_status_color_perc (av.score + qr.score + ed.score) (av.max + qr.max + ed.max)
  let descCount := ed.passed.length
  { id := "experience", icon := "💼", title := "Work Experience"
    status := sc.2.1
    color := sc.2.2
    points :=
      (if decide (ed.total_entries > 0) then
        [⟨"Found descriptions for " ++ toString descCount ++ " of "
            ++ toString ed.total_entries ++ " entries.",
          decide (descCount = ed.total_entries)⟩]
      else []) ++
      [⟨"Uses strong action verbs to start bullet points.", percAtLeast av.score av.max 60⟩,
       ⟨"Includes quantifiable achievements (numbers, $, %).", percAtLeast qr.score qr.max 60⟩]
    ai_suggestions := lookupSugg sugg "Experience & Projects" }

/-- Report card 3, Skills (lines 502-521). -/
def skillsCard (cs : CriteriaScores) (sugg : List (String × List String)) : ReportCard :=
  let kw := cs.keyword_density
  let sc := get_status_color_perc kw.score kw.max
  { id := "skills", icon := "🛠️", title := "Skills"
    status := sc.2.1
    color := sc.2.2
    points :=
      if kw.passed ≥ 15 then
        [⟨"Good mix of skills/keywords found (" ++ toString kw.passed ++ ").", true⟩]
      else if kw.passed ≥ 5 then
        [⟨"Includes some relevant skills (" ++ toString kw.passed ++ "), but could add more.", true⟩]
      else
        [⟨"Low skill/keyword count (" ++ toString kw.passed ++ "). Add more relevant terms.", false⟩]
    ai_suggestions := lookupSugg sugg "Keywords" }

/-- Report card 4, Formatting & Style (lines 523-555). -/
def styleCard (cs : CriteriaScores) (sugg : List (String × List String)) : ReportCard :=
  let bc := cs.bullet_conciseness
  let gi := cs.grammar_indicators
  let dc := cs.date_consistency
  let sc := get_status_color_perc (bc.score + gi.score + dc.score) (bc.max + gi.max + dc.max)
  { id := "style", icon := "🎨", title := "Formatting & Style"
    status := sc.2.1
    color := sc.2.2
    points := [⟨"Bullet points are concise and easy to read.", percAtLeast bc.score bc.max 80⟩,
      ⟨"Uses active voice and strong phrasing.", percAtLeast gi.score gi.max 80⟩,
      ⟨"Date formats are consistent.", dc.consistent⟩]
    ai_suggestions := lookupSugg sugg "Grammar & Style" }

/-- `_structure_frontend_response` (lines 332-563). -/
def structure_frontend_response (final_score : ℤ) (cs : CriteriaScores)
    (sugg : List (String × List String)) : StructuredOutput :=
  { ats_score := final_score
    score_breakdown_for_sidebar :=
      { overall_score := final_score
        total_issues := totalIssuesOf cs
        categories := [contentCategory cs, sectionCategory cs, atsCategory cs,
          tailoringCategory] }
    report_details := [summaryCard cs sugg, experienceCard cs sugg, skillsCard cs sugg,
      styleCard cs sugg] }

/-! ### The orchestrator (`calculate_ats_score`, lines 88-135) -/

/-- Python `round` (round half to even), as applied by
`int(round(...))` at line 116. -/
def pyRound (q : ℚ) : ℤ :=
  if q - ⌊q⌋ < 1 / 2 then ⌊q⌋
  else if 1 / 2 < q - ⌊q⌋ then ⌊q⌋ + 1
  else if ⌊q⌋ % 2 = 0 then ⌊q⌋ else ⌊q⌋ + 1

/-- The engine's response. The degraded shape of the source carries an
`"error"` key, an empty dict for the sidebar and an empty card list;
`error = none` / `score_breakdown_for_sidebar = some _` is the
successful shape. -/
structure AtsResponse where
  resume_id : String
  ats_score : ℤ
  error : Option String
  score_breakdown_for_sidebar : Option Sidebar
  report_details : List ReportCard

/-- `calculate_ats_score` (lines 88-135): empty-input guard, the
pipeline, and the catch-all conversion of any pipeline exception into
the degraded shape. In the model the only possible pipeline exception
is the `TypeError` of `iterJson`; the orchestrator itself is total, so
no exception ever reaches the caller. -/
def calculate_ats_score (resume_id : String) (d : List (String × Json)) : AtsResponse :=
  if d.isEmpty then
    { resume_id := resume_id, ats_score := 0,
      error := some "Processed resume data missing.",
      score_breakdown_for_sidebar := none, report_details := [] }
  else
    match calculate_criteria_scores d with
    | .error e =>
      { resume_id := resume_id, ats_score := 0,
        error := some ("An unexpected error occurred during scoring: " ++ e),
        score_breakdown_for_sidebar := none, report_details := [] }
    | .ok cs =>
      let final_score := pyRound (min (max 0 (sumScores cs)) 100)
      let out := structure_frontend_response final_score cs
        (generate_structured_suggestions cs final_score d)
      { resume_id := resume_id, ats_score := out.ats_score,
        error := none,
        score_breakdown_for_sidebar := some out.score_breakdown_for_sidebar,
        report_details := out.report_details }


/-! ### Derived views used in theorem statements -/

/-- Whether the "Extracted Keywords" value (defaulting to `[]`) is
something Python can iterate: a list, a string or a dict. -/
def extractedKeywordsIterable (d : List (String × Json)) : Bool :=
  match dictGetD d "Extracted Keywords" (.arr []) with
  | .arr _ => true
  | .str _ => true
  | .obj _ => true
  | _ => false

/-! ### Spec-side date classification, for the refinement check of the
date-consistency claim -/

/-- Modelled from the spec: «Classify each against five canonical shapes
(full date, year-month, month/year, "Month YYYY", the literal "Present")
via ordered pattern matching; anything else is "unknown" and excluded
from consistency judgment.» A date string is *recognized* exactly when
it classifies into one of the five shapes (`none` = unknown). -/
def specDateCategory (s : String) : Option String :=
  if matchYMDFull s then some "YYYY-MM-DD"
  else if matchYM s then some "YYYY-MM"
  else if matchMY s then some "MM/YYYY"
  else if matchWordY s then some "Month YYYY"
  else if pyUpper s = "PRESENT" then some "PRESENT"
  else none

/-- Modelled from the spec: the claimed condition for the
date-consistency criterion to score its maximum — «at least one
recognized format exists and all recognized formats (ignoring "Present")
are identical». -/
def specScore5Cond (dates : List String) : Bool :=
  let recog := dates.filterMap specDateCategory
  !recog.isEmpty
    && decide ((recog.filter (fun c => decide (c ≠ "PRESENT"))).dedup.length ≤ 1)

/-! ### Concrete inputs used by counterexamples and witnesses -/

/-- A non-empty resume with no entries, bullets or dates. -/
def emptySkillsResume : List (String × Json) := [("Skills", .arr [])]

/-- A resume whose only date string is "Presently": accepted by the
recognizer regex (which matches any string beginning with "Present"
case-insensitively) but classified "Unknown". -/
def presentlyResume : List (String × Json) :=
  [("Experiences", .arr [.obj [("startDate", .str "Presently")]])]

/-- A resume with zero description bullets whose "Extracted Keywords"
value is the number 5 — not iterable in Python. -/
def badKeywordsResume : List (String × Json) :=
  [("Extracted Keywords", .num 5)]

/-- Date strings `["2020-01", "2021-05", "Present"]`. -/
def consistentDatesResume : List (String × Json) :=
  [("Experiences", .arr
    [.obj [("startDate", .str "2020-01"), ("endDate", .str "2021-05")],
     .obj [("endDate", .str "Present")]])]

/-- Date strings `["2020-01", "05/2021"]`. -/
def mixedDatesResume : List (String × Json) :=
  [("Experiences", .arr
    [.obj [("startDate", .str "2020-01"), ("endDate", .str "05/2021")]])]

/-- Personal data with a valid email, a phone number and a LinkedIn
link. -/
def contactFields : List (String × Json) :=
  [("email", .str "a@b.com"), ("phone", .str "555-123-4567"),
   ("linkedin", .str "https://linkedin.com/in/x")]

def contactResume : List (String × Json) := [("Personal Data", .obj contactFields)]

/-! ### Helper lemmas -/

/-- Concrete-input checks that the embedded matchers agree with the
Python regexes at representative strings. -/
theorem regex_matchers_sanity :
    email_pattern_match "a@b.com" = true
    ∧ email_pattern_match "ab.com" = false
    ∧ email_pattern_match "a@bcom" = false
    ∧ phone_pattern_search "555-123-4567" = true
    ∧ phone_pattern_search "call me" = false
    ∧ date_format_pattern_match "2020-01" = true
    ∧ date_format_pattern_match "05/2021" = true
    ∧ date_format_pattern_match "Presently" = true
    ∧ dateCategory "Presently" = "Unknown"
    ∧ dateCategory "Present" = "PRESENT"
    ∧ dateCategory "May 2020" = "Month YYYY"
    ∧ passive_voice_search "the team was managed well" = true
    ∧ passive_voice_search "managed the team" = false
    ∧ filler_words_search "Responsible for testing" = true
    ∧ filler_words_search "led testing" = false
    ∧ pyWsSplit "  two  words " = ["two", "words"]
    ∧ sortStrs ["b", "a", "c"] = ["a", "b", "c"] := by
  decide

theorem isEmpty_false_of_ne_nil {α : Type} {l : List α} (h : l ≠ []) :
    l.isEmpty = false := by
  cases l with
  | nil => exact absurd rfl h
  | cons a t => rfl

theorem calc_ok_cases {d : List (String × Json)} {cs : CriteriaScores}
    (h : calculate_criteria_scores d = .ok cs) :
    ∃ kws, iterJson (dictGetD d "Extracted Keywords" (.arr [])) = .ok kws
      ∧ cs = calcCriteriaCore d kws := by
  unfold calculate_criteria_scores at h
  cases hit : iterJson (dictGetD d "Extracted Keywords" (.arr [])) with
  | error e => rw [hit] at h; cases h
  | ok kws =>
    rw [hit] at h
    injection h with h'
    exact ⟨kws, rfl, h'.symm⟩

theorem ats_empty_eq (rid : String) :
    calculate_ats_score rid [] =
      { resume_id := rid, ats_score := 0,
        error := some "Processed resume data missing.",
        score_breakdown_for_sidebar := none, report_details := [] } := rfl

theorem ats_error_eq (rid : String) (d : List (String × Json)) (e : String)
    (hne : d.isEmpty = false) (h : calculate_criteria_scores d = .error e) :
    calculate_ats_score rid d =
      { resume_id := rid, ats_score := 0,
        error := some ("An unexpected error occurred during scoring: " ++ e),
        score_breakdown_for_sidebar := none, report_details := [] } := by
  unfold calculate_ats_score
  rw [hne, h]
  rfl

theorem ats_ok_eq (rid : String) (d : List (String × Json)) (cs : CriteriaScores)
    (hne : d.isEmpty = false) (h : calculate_criteria_scores d = .ok cs) :
    calculate_ats_score rid d =
      { resume_id := rid
        ats_score := pyRound (min (max 0 (sumScores cs)) 100)
        error := none
        score_breakdown_for_sidebar := some (structure_frontend_response
          (pyRound (min (max 0 (sumScores cs)) 100)) cs
          (generate_structured_suggestions cs
            (pyRound (min (max 0 (sumScores cs)) 100)) d)).score_breakdown_for_sidebar
        report_details := (structure_frontend_response
          (pyRound (min (max 0 (sumScores cs)) 100)) cs
          (generate_structured_suggestions cs
            (pyRound (min (max 0 (sumScores cs)) 100)) d)).report_details } := by
  unfold calculate_ats_score
  rw [hne, h]
  rfl

theorem floor_le_99_of_half {q : ℚ} (h1 : q ≤ 100) (hge : (1 : ℚ) / 2 ≤ q - ⌊q⌋) :
    ⌊q⌋ ≤ 99 := by
  by_contra hc
  push_neg at hc
  have h100 : (100 : ℚ) ≤ (⌊q⌋ : ℚ) := by exact_mod_cast hc
  linarith

theorem pyRound_bounds {q : ℚ} (h0 : 0 ≤ q) (h1 : q ≤ 100) :
    0 ≤ pyRound q ∧ pyRound q ≤ 100 := by
  have hf0 : (0 : ℤ) ≤ ⌊q⌋ := Int.le_floor.mpr (by exact_mod_cast h0)
  have hf100 : ⌊q⌋ ≤ 100 := by
    have h := Int.floor_le_floor h1
    have h100 : ⌊(100 : ℚ)⌋ = 100 := by norm_num
    omega
  unfold pyRound
  split_ifs with h2 h3 h4
  · exact ⟨hf0, hf100⟩
  · have h99 := floor_le_99_of_half h1 (not_lt.mp h2)
    omega
  · exact ⟨hf0, hf100⟩
  · have h99 := floor_le_99_of_half h1 (not_lt.mp h2)
    omega

/-! ### Claim theorems -/

/-- **C1** (code bug): the criteria structure does contain exactly ten
named criteria, but for every input the `max` weights the source assigns
(15, 10, 5, 15, 10, 15, 15, 10, 5, 5) sum to 105, not 100 — the code's
own runtime checks at lines 114 and 153
(`if max_score_check != 100: logger.warning(...)`) fire on every
invocation, so the code contradicts its own asserted invariant. -/
theorem ten_criteria_weights_sum_105 (d : List (String × Json)) (cs : CriteriaScores)
    (h : calculate_criteria_scores d = .ok cs) :
    (criteriaMaxPairs cs).length = 10
    ∧ ((criteriaMaxPairs cs).map Prod.snd).sum = 105 := by
  obtain ⟨kws, -, rfl⟩ := calc_ok_cases h
  refine ⟨rfl, ?_⟩
  norm_num [criteriaMaxPairs, calcCriteriaCore, sectionCompletenessOf,
    contactInfoOf, profileSummaryOf, keywordDensityOf, experienceDetailsOf,
    actionVerbsOf, quantifiableOf, concisenessOf, grammarOf, dateConsistencyOf]

theorem ten_criteria_weights_sum_105_witness :
    (criteriaMaxPairs (calcCriteriaCore emptySkillsResume [])).length = 10
    ∧ ((criteriaMaxPairs (calcCriteriaCore emptySkillsResume [])).map Prod.snd).sum = 105 :=
  ten_criteria_weights_sum_105 emptySkillsResume _ rfl

/-- **C2.** For every non-empty input on which the pipeline completes
without an internal exception, the returned `ats_score` equals the sum
of the ten criterion scores clamped to [0, 100] and rounded to an
integer, and satisfies `0 ≤ ats_score ≤ 100`. -/
theorem ats_score_formula_and_range (rid : String) (d : List (String × Json))
    (cs : CriteriaScores) (hne : d ≠ [])
    (h : calculate_criteria_scores d = .ok cs) :
    (calculate_ats_score rid d).ats_score = pyRound (min (max 0 (sumScores cs)) 100)
    ∧ 0 ≤ (calculate_ats_score rid d).ats_score
    ∧ (calculate_ats_score rid d).ats_score ≤ 100 := by
  rw [ats_ok_eq rid d cs (isEmpty_false_of_ne_nil hne) h]
  have hc0 : 0 ≤ min (max 0 (sumScores cs)) 100 :=
    le_min (le_max_left _ _) (by norm_num)
  have hc1 : min (max 0 (sumScores cs)) 100 ≤ 100 := min_le_right _ _
  have hb := pyRound_bounds hc0 hc1
  exact ⟨rfl, hb.1, hb.2⟩

theorem ats_score_formula_and_range_witness :
    (calculate_ats_score "r" emptySkillsResume).ats_score
      = pyRound (min (max 0 (sumScores (calcCriteriaCore emptySkillsResume []))) 100)
    ∧ 0 ≤ (calculate_ats_score "r" emptySkillsResume).ats_score
    ∧ (calculate_ats_score "r" emptySkillsResume).ats_score ≤ 100 :=
  ats_score_formula_and_range "r" emptySkillsResume _ (List.cons_ne_nil _ _) rfl

/-- **C3.** An empty structured input yields the degraded response shape
(`ats_score = 0`, the fixed non-empty error string, empty sidebar,
empty report details) without running the pipeline, and any exception
raised inside the pipeline is caught and converted into the same
degraded shape with a non-empty error string; `calculate_ats_score`
itself is a total function, so no exception reaches the caller. -/
theorem degraded_shapes_and_no_exception (rid : String) (d : List (String × Json)) :
    (d = [] →
      calculate_ats_score rid d =
        { resume_id := rid, ats_score := 0,
          error := some "Processed resume data missing.",
          score_breakdown_for_sidebar := none, report_details := [] }
      ∧ "Processed resume data missing." ≠ "")
    ∧ (∀ e, calculate_criteria_scores d = .error e →
        (calculate_ats_score rid d).ats_score = 0
        ∧ (∃ msg, (calculate_ats_score rid d).error = some msg ∧ msg ≠ "")
        ∧ (calculate_ats_score rid d).score_breakdown_for_sidebar = none
        ∧ (calculate_ats_score rid d).report_details = []) := by
  constructor
  · rintro rfl
    exact ⟨ats_empty_eq rid, by decide⟩
  · intro e he
    have hne : d.isEmpty = false := by
      cases d with
      | nil =>
        exact absurd
          (show Except.ok (calcCriteriaCore [] []) = Except.error e from he)
          (by simp)
      | cons a t => rfl
    rw [ats_error_eq rid d e hne he]
    refine ⟨rfl, ⟨_, rfl, ?_⟩, rfl, rfl⟩
    intro hmsg
    have hdata : ("An unexpected error occurred during scoring: ").data ++ e.data
        = ([] : List Char) := congrArg String.data hmsg
    exact absurd (List.append_eq_nil.mp hdata).1 (by decide)

theorem degraded_shapes_and_no_exception_witness :
    (calculate_ats_score "r" [] =
      { resume_id := "r", ats_score := 0,
        error := some "Processed resume data missing.",
        score_breakdown_for_sidebar := none, report_details := [] }
      ∧ "Processed resume data missing." ≠ "")
    ∧ ((calculate_ats_score "r" badKeywordsResume).ats_score = 0
      ∧ (∃ msg, (calculate_ats_score "r" badKeywordsResume).error = some msg ∧ msg ≠ "")
      ∧ (calculate_ats_score "r" badKeywordsResume).score_breakdown_for_sidebar = none
      ∧ (calculate_ats_score "r" badKeywordsResume).report_details = []) :=
  ⟨(degraded_shapes_and_no_exception "r" []).1 rfl,
   (degraded_shapes_and_no_exception "r" badKeywordsResume).2
     "TypeError: 'Extracted Keywords' value is not iterable" rfl⟩

/-- **C10.** The `resume_id` of the response equals the `resume_id`
argument in all three outcome shapes (success, empty input, caught
exception). -/
theorem resume_id_roundtrip (rid : String) (d : List (String × Json)) :
    (calculate_ats_score rid d).resume_id = rid := by
  unfold calculate_ats_score
  by_cases hd : d.isEmpty = true
  · rw [if_pos hd]
  · rw [if_neg hd]
    cases hc : calculate_criteria_scores d with
    | error e => rfl
    | ok cs => rfl

theorem isEmpty_false_iff {α : Type} {l : List α} : l.isEmpty = false ↔ l ≠ [] := by
  cases l <;> simp

theorem bang_isEmpty_true_iff {α : Type} {l : List α} : (!l.isEmpty) = true ↔ l ≠ [] := by
  cases l <;> simp

theorem dateMain_iff (dates : List String) :
    (consistentDatesPre dates && !(dateFormatsFound dates).isEmpty) = true
      ↔ (dateFormatsFound dates ≠ [] ∧ (dateValidTypes dates).length ≤ 1) := by
  unfold consistentDatesPre
  cases hM : (dateFormatsFound dates).isEmpty with
  | true =>
    have hnil : dateFormatsFound dates = [] := by
      cases hE : dateFormatsFound dates with
      | nil => rfl
      | cons a t => rw [hE] at hM; cases hM
    simp [hnil]
  | false =>
    have hne : dateFormatsFound dates ≠ [] := isEmpty_false_iff.mp hM
    cases hNU : (dateNonUnknownCats dates).isEmpty with
    | true =>
      have hnu : dateNonUnknownCats dates = [] := by
        cases hE : dateNonUnknownCats dates with
        | nil => rfl
        | cons a t => rw [hE] at hNU; cases hNU
      have hvt : dateValidTypes dates = [] := by
        unfold dateValidTypes
        rw [hnu]
        rfl
      simp [hne, hvt]
    | false =>
      simp [hne, Nat.not_lt]

theorem dateConsistencyOf_characterization (dates : List String) :
    (((dateConsistencyOf dates).score = 5 ∧ (dateConsistencyOf dates).consistent = true)
      ↔ (dateFormatsFound dates ≠ [] ∧ (dateValidTypes dates).length ≤ 1))
    ∧ (dates = [] →
        (dateConsistencyOf dates).score = 5 / 2
        ∧ (dateConsistencyOf dates).consistent = true)
    ∧ ((dates ≠ []
        ∧ ¬(dateFormatsFound dates ≠ [] ∧ (dateValidTypes dates).length ≤ 1)) →
        (dateConsistencyOf dates).score = 0
        ∧ (dateConsistencyOf dates).consistent = false) := by
  refine ⟨⟨?_, ?_⟩, ?_, ?_⟩
  · rintro ⟨hs, -⟩
    by_cases hcond : (consistentDatesPre dates && !(dateFormatsFound dates).isEmpty) = true
    · exact (dateMain_iff dates).mp hcond
    · exfalso
      have hs' : (if (consistentDatesPre dates && !(dateFormatsFound dates).isEmpty) = true
          then (5 : ℚ) else if dates.isEmpty = true then (5 : ℚ) * 0.5 else 0) = 5 := hs
      rw [if_neg hcond] at hs'
      split_ifs at hs' <;> norm_num at hs'
  · intro hrhs
    have hcond := (dateMain_iff dates).mpr hrhs
    exact ⟨by simp [dateConsistencyOf, hcond], by simp [dateConsistencyOf, hcond]⟩
  · rintro rfl
    exact ⟨by norm_num [dateConsistencyOf, consistentDatesPre, dateFormatsFound], by decide⟩
  · rintro ⟨hdne, hnc⟩
    have hcond : (consistentDatesPre dates && !(dateFormatsFound dates).isEmpty) = false := by
      rw [← Bool.not_eq_true]
      intro hc
      exact hnc ((dateMain_iff dates).mp hc)
    have hie : dates.isEmpty = false := isEmpty_false_of_ne_nil hdne
    exact ⟨by simp [dateConsistencyOf, hcond, hie], by simp [dateConsistencyOf, hcond, hie]⟩

/-- **C4 counterexample.** `presentlyResume` carries the single date
string "Presently": date strings exist and none of them classifies into
any of the five canonical shapes (so the claim's condition for scoring 5
fails and the claim demands score 0 with `consistent = false`), yet the
code scores 5 with `consistent = true`, because the recognizer regex
accepts any string beginning with "Present" case-insensitively while the
category classification files it under "Unknown". -/
theorem date_consistency_presently_counterexample :
    collectDateStrings presentlyResume = ["Presently"]
    ∧ (collectDateStrings presentlyResume).filterMap specDateCategory = []
    ∧ specScore5Cond (collectDateStrings presentlyResume) = false
    ∧ (exceptOk (calculate_criteria_scores presentlyResume)).map
        (fun cs => (cs.date_consistency.score, cs.date_consistency.consistent))
      = some (5, true) := by
  refine ⟨by decide, by decide, by decide, by decide⟩

/-- **C4 amended.** The date-consistency criterion scores 5 with
`consistent = true` exactly when at least one collected date string is
accepted by the recognizer regex (the four anchored shapes, or any
string beginning with "Present" case-insensitively) and at most one
format category other than "PRESENT" and "Unknown" occurs among the
accepted strings; it scores 2.5 with `consistent = true` when no date
strings exist at all; and it scores 0 with `consistent = false`
otherwise. -/
theorem date_consistency_code_behaviour (d : List (String × Json)) (cs : CriteriaScores)
    (h : calculate_criteria_scores d = .ok cs) :
    ((cs.date_consistency.score = 5 ∧ cs.date_consistency.consistent = true)
      ↔ (dateFormatsFound (collectDateStrings d) ≠ []
          ∧ (dateValidTypes (collectDateStrings d)).length ≤ 1))
    ∧ (collectDateStrings d = [] →
        cs.date_consistency.score = 5 / 2 ∧ cs.date_consistency.consistent = true)
    ∧ ((collectDateStrings d ≠ []
        ∧ ¬(dateFormatsFound (collectDateStrings d) ≠ []
            ∧ (dateValidTypes (collectDateStrings d)).length ≤ 1)) →
        cs.date_consistency.score = 0 ∧ cs.date_consistency.consistent = false) := by
  obtain ⟨kws, -, rfl⟩ := calc_ok_cases h
  have hdc : (calcCriteriaCore d kws).date_consistency
      = dateConsistencyOf (collectDateStrings d) := rfl
  rw [hdc]
  exact dateConsistencyOf_characterization (collectDateStrings d)

theorem date_consistency_code_behaviour_witness :
    ((calcCriteriaCore consistentDatesResume []).date_consistency.score = 5
      ∧ (calcCriteriaCore consistentDatesResume []).date_consistency.consistent = true)
    ∧ ((calcCriteriaCore mixedDatesResume []).date_consistency.score = 0
      ∧ (calcCriteriaCore mixedDatesResume []).date_consistency.consistent = false) :=
  ⟨(date_consistency_code_behaviour consistentDatesResume _ rfl).1.mpr
      ⟨by decide, by decide⟩,
   (date_consistency_code_behaviour mixedDatesResume _ rfl).2.2
      ⟨by decide, by decide⟩⟩

/-- **C5 counterexample.** `badKeywordsResume` has zero description
bullets across its experience and project entries, yet
`_calculate_criteria_scores` raises a `TypeError` (iterating the
number 5 stored under "Extracted Keywords"), caught only at the
orchestrator — so an exception is raised inside the scorer and no
criterion scores are produced at all, contradicting the claim for this
zero-bullet input. -/
theorem zero_bullets_exception_counterexample :
    (bulletCountsOf (allBullets badKeywordsResume)).total = 0
    ∧ (exceptOk (calculate_criteria_scores badKeywordsResume)).isNone = true := by
  exact ⟨by decide, by decide⟩

/-- **C5 amended.** For every input whose experience and project entries
contain zero description bullets in total and whose "Extracted Keywords"
value (when present) is iterable (a list, string or dict), the scorer
completes without an exception — in particular no division by zero — and
the action-verbs, quantifiable-results, bullet-conciseness and
grammar-indicator scores are all exactly 0. -/
theorem zero_bullets_scores_zero (d : List (String × Json))
    (hkw : extractedKeywordsIterable d = true)
    (hz : (bulletCountsOf (allBullets d)).total = 0) :
    ∃ cs, calculate_criteria_scores d = .ok cs
      ∧ cs.action_verbs.score = 0 ∧ cs.quantifiable_results.score = 0
      ∧ cs.bullet_conciseness.score = 0 ∧ cs.grammar_indicators.score = 0 := by
  have hscores : ∀ kws, (calcCriteriaCore d kws).action_verbs.score = 0
      ∧ (calcCriteriaCore d kws).quantifiable_results.score = 0
      ∧ (calcCriteriaCore d kws).bullet_conciseness.score = 0
      ∧ (calcCriteriaCore d kws).grammar_indicators.score = 0 := by
    intro kws
    refine ⟨?_, ?_, ?_, ?_⟩ <;>
      simp [calcCriteriaCore, actionVerbsOf, quantifiableOf, concisenessOf, grammarOf, hz]
  unfold extractedKeywordsIterable at hkw
  unfold calculate_criteria_scores
  cases hv : dictGetD d "Extracted Keywords" (.arr []) with
  | str s => exact ⟨_, rfl, hscores _⟩
  | arr xs => exact ⟨_, rfl, hscores _⟩
  | obj fs => exact ⟨_, rfl, hscores _⟩
  | num q => rw [hv] at hkw; cases hkw
  | bool b => rw [hv] at hkw; cases hkw
  | null => rw [hv] at hkw; cases hkw

theorem zero_bullets_scores_zero_witness :
    extractedKeywordsIterable emptySkillsResume = true
    ∧ (bulletCountsOf (allBullets emptySkillsResume)).total = 0
    ∧ ∃ cs, calculate_criteria_scores emptySkillsResume = .ok cs
      ∧ cs.action_verbs.score = 0 ∧ cs.quantifiable_results.score = 0
      ∧ cs.bullet_conciseness.score = 0 ∧ cs.grammar_indicators.score = 0 :=
  ⟨by decide, by decide,
   zero_bullets_scores_zero emptySkillsResume (by decide) (by decide)⟩

/-- **C6.** With email "a@b.com", phone "555-123-4567" and a linkedin
string containing "linkedin.com", the contact-info-quality score equals
its maximum of 10; and for every input the score is the sum of three
independent additive parts worth 4 (email shape), 4 (phone digits) and
2 (professional link) points, i.e. 40%, 40% and 20% of 10. -/
theorem contact_info_full_and_additive (d : List (String × Json))
    (pd : List (String × Json)) (l : String)
    (hpd : dictGet d "Personal Data" = some (.obj pd))
    (he : dictGet pd "email" = some (.str "a@b.com"))
    (hp : dictGet pd "phone" = some (.str "555-123-4567"))
    (hl : dictGet pd "linkedin" = some (.str l))
    (hlc : containsSub (pyLower l) "linkedin.com" = true) :
    (contactInfoOf d).score = 10
    ∧ (∀ d' : List (String × Json),
        (contactInfoOf d').score =
          (if emailOk (pdFieldsOf d') then 4 else 0)
          + (if phoneOk (pdFieldsOf d') then 4 else 0)
          + (if linkedinOk (pdFieldsOf d') then 2 else 0)) := by
  have hadd : ∀ d' : List (String × Json),
      (contactInfoOf d').score =
        (if emailOk (pdFieldsOf d') then 4 else 0)
        + (if phoneOk (pdFieldsOf d') then 4 else 0)
        + (if linkedinOk (pdFieldsOf d') then 2 else 0) := by
    intro d'
    unfold contactInfoOf
    by_cases h1 : emailOk (pdFieldsOf d') = true <;>
      by_cases h2 : phoneOk (pdFieldsOf d') = true <;>
      by_cases h3 : linkedinOk (pdFieldsOf d') = true <;>
      simp [h1, h2, h3] <;> norm_num
  refine ⟨?_, hadd⟩
  have hpdf : pdFieldsOf d = pd := by
    unfold pdFieldsOf dictGetD
    rw [hpd]
    rfl
  have he1 : emailOk pd = true := by
    unfold emailOk
    rw [he]
    decide
  have hp1 : phoneOk pd = true := by
    unfold phoneOk
    rw [hp]
    decide
  have hl1 : linkedinOk pd = true := by
    have hlne : l ≠ "" := fun hleq => absurd (hleq ▸ hlc) (by decide)
    have hstr : pyLower l ≠ "string" := fun hs => absurd (hs ▸ hlc) (by decide)
    unfold linkedinOk
    rw [hl]
    show (decide (l ≠ "") && containsSub (pyLower l) "linkedin.com"
      && !decide (pyLower l = "string")) = true
    rw [decide_eq_true hlne, decide_eq_false hstr, hlc]
    rfl
  rw [hadd d, hpdf, he1, hp1, hl1]
  norm_num

theorem contact_info_full_and_additive_witness :
    (contactInfoOf contactResume).score = 10 :=
  (contact_info_full_and_additive contactResume contactFields
    "https://linkedin.com/in/x" rfl rfl rfl rfl (by decide)).1

/-- **C7.** The percentage helper yields `none` when the maximum is 0
and otherwise `⌈clamp(score/max, 0, 1) * 100⌉`; the bucketing maps a
percentage ≥ 80 to "Strong"/success, one in [60, 80) to "Okay"/warning
and one below 60 to "Needs Improvement"/error; and each of the four
report cards' status/color pair is produced by this same helper applied
to the card's aggregated score and max. -/
theorem percentage_and_bucketing :
    (∀ s : ℚ, (get_status_color_perc s 0).1 = none ∧ calculate_percentage s 0 = none)
    ∧ (∀ s m : ℚ, m ≠ 0 →
        (get_status_color_perc s m).1 = some ⌈min (max (s / m) 0) 1 * 100⌉
        ∧ calculate_percentage s m = some ⌈min (max (s / m) 0) 1 * 100⌉)
    ∧ (∀ s m : ℚ, ∀ p : ℤ, (get_status_color_perc s m).1 = some p →
        (p ≥ 80 → (get_status_color_perc s m).2 = ("Strong", "success"))
        ∧ (60 ≤ p ∧ p < 80 → (get_status_color_perc s m).2 = ("Okay", "warning"))
        ∧ (p < 60 → (get_status_color_perc s m).2 = ("Needs Improvement", "error")))
    ∧ (∀ (f : ℤ) (cs : CriteriaScores) (sugg : List (String × List String)),
        (structure_frontend_response f cs sugg).report_details.map
            (fun c => (c.status, c.color))
          = [(get_status_color_perc cs.profile_summary_quality.score
                cs.profile_summary_quality.max).2,
             (get_status_color_perc
                (cs.action_verbs.score + cs.quantifiable_results.score
                  + cs.experience_details_present.score)
                (cs.action_verbs.max + cs.quantifiable_results.max
                  + cs.experience_details_present.max)).2,
             (get_status_color_perc cs.keyword_density.score cs.keyword_density.max).2,
             (get_status_color_perc
                (cs.bullet_conciseness.score + cs.grammar_indicators.score
                  + cs.date_consistency.score)
                (cs.bullet_conciseness.max + cs.grammar_indicators.max
                  + cs.date_consistency.max)).2]) := by
  refine ⟨?_, ?_, ?_, ?_⟩
  · intro s
    exact ⟨by simp [get_status_color_perc], by simp [calculate_percentage]⟩
  · intro s m hm
    constructor
    · unfold get_status_color_perc
      rw [if_neg hm]
      split_ifs <;> rfl
    · unfold calculate_percentage
      rw [if_neg hm]
  · intro s m p hp
    by_cases hm : m = 0
    · rw [get_status_color_perc, if_pos hm] at hp
      exact absurd hp (by simp)
    · have hpe : p = ⌈min (max (s / m) 0) 1 * 100⌉ := by
        unfold get_status_color_perc at hp
        rw [if_neg hm] at hp
        split_ifs at hp <;> exact (Option.some.inj hp).symm
      subst hpe
      unfold get_status_color_perc
      rw [if_neg hm]
      refine ⟨fun h80 => ?_, fun h60 => ?_, fun hlt => ?_⟩
      · rw [if_pos h80]
      · rw [if_neg (by omega : ¬(⌈min (max (s / m) 0) 1 * 100⌉ ≥ (80 : ℤ))),
          if_pos (by omega : ⌈min (max (s / m) 0) 1 * 100⌉ ≥ (60 : ℤ))]
      · rw [if_neg (by omega : ¬(⌈min (max (s / m) 0) 1 * 100⌉ ≥ (80 : ℤ))),
          if_neg (by omega : ¬(⌈min (max (s / m) 0) 1 * 100⌉ ≥ (60 : ℤ)))]
  · intro f cs sugg
    rfl

theorem clamp_three_quarters : ⌈min (max ((3 : ℚ) / 4) 0) 1 * 100⌉ = (75 : ℤ) := by
  have h1 : max ((3 : ℚ) / 4) 0 = 3 / 4 := max_eq_left (by norm_num)
  have h2 : min ((3 : ℚ) / 4) 1 = 3 / 4 := min_eq_left (by norm_num)
  have h3 : ((3 : ℚ) / 4) * 100 = 75 := by norm_num
  rw [h1, h2, h3]
  simp

theorem percentage_and_bucketing_witness :
    (get_status_color_perc 1 0).1 = none
    ∧ (get_status_color_perc 3 4).1 = some 75
    ∧ (get_status_color_perc 3 4).2 = ("Okay", "warning") := by
  have hp75 : (get_status_color_perc 3 4).1 = some 75 := by
    rw [(percentage_and_bucketing.2.1 3 4 (by norm_num)).1, clamp_three_quarters]
  exact ⟨(percentage_and_bucketing.1 1).1, hp75,
    (percentage_and_bucketing.2.2.1 3 4 75 hp75).2.1 (by decide)⟩

/-- **C8.** The suggestions mapping always contains an "Overall"
category carrying at least one banded message, and every category
present in the returned mapping carries a non-empty list (empty
categories are filtered out). -/
theorem suggestions_overall_present_and_nonempty (cs : CriteriaScores)
    (final_score : ℤ) (d : List (String × Json)) :
    (("Overall", overallSuggestion final_score (hasSpecificOf cs d))
        ∈ generate_structured_suggestions cs final_score d)
    ∧ overallSuggestion final_score (hasSpecificOf cs d) ≠ []
    ∧ (∀ p ∈ generate_structured_suggestions cs final_score d, p.2 ≠ []) := by
  have hov : overallSuggestion final_score (hasSpecificOf cs d) ≠ [] := by
    unfold overallSuggestion
    split_ifs <;> simp
  refine ⟨?_, hov, ?_⟩
  · unfold generate_structured_suggestions
    refine List.mem_filter.mpr ⟨List.mem_cons_self _ _, ?_⟩
    exact bang_isEmpty_true_iff.mpr hov
  · intro p hp
    exact bang_isEmpty_true_iff.mp (List.mem_filter.mp hp).2

theorem suggestions_overall_present_and_nonempty_witness :
    (("Overall", overallSuggestion 0 (hasSpecificOf (calcCriteriaCore emptySkillsResume []) emptySkillsResume))
        ∈ generate_structured_suggestions (calcCriteriaCore emptySkillsResume []) 0 emptySkillsResume)
    ∧ ("Overall", overallSuggestion 0 (hasSpecificOf (calcCriteriaCore emptySkillsResume []) emptySkillsResume)).2 ≠ [] :=
  ⟨(suggestions_overall_present_and_nonempty (calcCriteriaCore emptySkillsResume []) 0 emptySkillsResume).1,
   (suggestions_overall_present_and_nonempty (calcCriteriaCore emptySkillsResume []) 0 emptySkillsResume).2.2
     _ (suggestions_overall_present_and_nonempty (calcCriteriaCore emptySkillsResume []) 0 emptySkillsResume).1⟩

/-- **C9.** The "ATS Parse Rate" sub-item of the CONTENT category and
the "File Format & Size" sub-item of the ATS ESSENTIALS category are
hard-coded to status "pass" for every input, and `total_issues` equals
the number of "fail"-tagged sub-items across the whole sidebar — so the
two hard-coded items never contribute to it. -/
theorem hardcoded_pass_subitems (final_score : ℤ) (cs : CriteriaScores)
    (sugg : List (String × List String)) :
    ((structure_frontend_response final_score cs sugg).score_breakdown_for_sidebar.categories
      = [contentCategory cs, sectionCategory cs, atsCategory cs, tailoringCategory])
    ∧ (contentCategory cs).sub_items.head? = some ⟨"ATS Parse Rate", "pass"⟩
    ∧ (atsCategory cs).sub_items.head? = some ⟨"File Format & Size", "pass"⟩
    ∧ (structure_frontend_response final_score cs sugg).score_breakdown_for_sidebar.total_issues
      = (((structure_frontend_response final_score cs sugg).score_breakdown_for_sidebar.categories.map
          (fun c => (c.sub_items.filter (fun si => decide (si.status = "fail"))).length)).sum) := by
  refine ⟨rfl, rfl, rfl, ?_⟩
  show totalIssuesOf cs = _
  unfold structure_frontend_response totalIssuesOf contentCategory sectionCategory
    atsCategory tailoringCategory passFail
  cases qrPassB cs <;> cases giPassB cs <;> cases esPassB cs <;> cases ciPassB cs <;>
    cases emailPassB cs <;> cases linkedinPassB cs <;> rfl
